import Mathlib

/-
  Verification of the image-describer application (src/app.py).

  Strings are embedded as `List Char`; Python string operations
  (str.split, str.strip, " ".join, "\n\n".join) are translated directly.
  External library behaviour (PIL decode/convert, the Anthropic service,
  the Streamlit widget layer) appears as explicit parameters or abstract
  state so that the repository's own logic is the only code being modelled.
-/

namespace Describer

/-- Whitespace test used by Python `str.split()` / `str.strip()`. -/
def isSpace (c : Char) : Bool := c.isWhitespace

/-- Accumulator worker for Python `str.split()` with no separator:
splits on runs of whitespace and drops empty fragments. -/
def wordsAux : List Char → List Char → List (List Char)
  | [], acc => if acc = [] then [] else [acc.reverse]
  | c :: cs, acc =>
    if isSpace c then
      if acc = [] then wordsAux cs [] else acc.reverse :: wordsAux cs []
    else
      wordsAux cs (c :: acc)

/-- Python `text.split()` — the word list of a string. -/
def pywords (s : List Char) : List (List Char) := wordsAux s []

/-- Python `" ".join(words)`. -/
def joinSpace : List (List Char) → List Char
  | [] => []
  | [w] => w
  | w :: w2 :: ws => w ++ ' ' :: joinSpace (w2 :: ws)

/-- The ellipsis marker `"..."` appended on truncation. -/
def dots : List Char := ['.', '.', '.']

/-- `enforce_word_limit` from src/app.py lines 116-120:
split into words; if within the limit return the text unchanged,
otherwise rejoin the first `max_words` words and append `"..."`. -/
def enforce_word_limit (text : List Char) (max_words : Nat) : List Char :=
  let words := pywords text
  if words.length ≤ max_words then text
  else joinSpace (words.take max_words) ++ dots

/-- A word produced by splitting: non-empty and free of whitespace. -/
def goodWord (w : List Char) : Prop := w ≠ [] ∧ ∀ c ∈ w, isSpace c = false

/-- The user prompt template of `describe_image_with_claude`
(src/app.py lines 69-81) up to the interpolated word limit. -/
def promptPre : List Char :=
  ("\nYou will see an image. Follow this approach strictly:\n\n#Approach\n\n1. Begin your answer with a line in this exact format: **Picture Type:** <short type, e.g. \"Car picture\", \"Baby picture\", \"Food picture\">.\n2. After that, write a short 1–2 sentence explanation of the overall picture.\n3. Then explain the picture in **Markdown format** using descriptive language.\n4. Keep the entire response under **").toList

/-- The user prompt template after the interpolated word limit. -/
def promptPost : List Char :=
  (" words**, and never exceed **300 words** in any case. HARD LIMIT.\n5. Format the description so it is easily scannable (for example, bullets with bold labels, short lines).\n6. Use **only** what is visible in the provided image. Do not invent or guess hidden details.\n7. Output **only** the description itself (starting with the “Picture Type” line). Do not repeat these instructions or add extra commentary.\n").toList

/-- The rendered user prompt: the f-string with the (already clamped)
word limit interpolated in decimal. -/
def user_prompt (m : Nat) : List Char := promptPre ++ (Nat.repr m).toList ++ promptPost

/-- A content block of the service response: only text blocks are consumed
(src/app.py lines 109-111 filter on `type == "text"`). -/
inductive ContentBlock where
  | text (s : List Char)
  | other

/-- The text of every text-typed block, in response order. -/
def textChunks : List ContentBlock → List (List Char)
  | [] => []
  | ContentBlock.text s :: bs => s :: textChunks bs
  | ContentBlock.other :: bs => textChunks bs

/-- Python `"\n\n".join(chunks)` (src/app.py line 112). -/
def joinBlank : List (List Char) → List Char
  | [] => []
  | [w] => w
  | w :: w2 :: ws => w ++ '\n' :: '\n' :: joinBlank (w2 :: ws)

/-- A decoded PIL image: its color mode string and its visual content,
abstracted as an opaque identifier (decoding itself is external code). -/
structure PILImage where
  mode : String
  content : Nat

/-- PIL `Image.convert`: changes the color mode; by the external library's
semantics the visual content is preserved. -/
def PILImage.convert (img : PILImage) (m : String) : PILImage :=
  { mode := m, content := img.content }

/-- A PNG-encoded byte buffer: the canonical output format of the
normalizer, recording the encoded color mode and visual content. -/
inductive PNGBytes where
  | png (mode : String) (content : Nat)

/-- `to_png_bytes` from src/app.py lines 40-49: convert to RGBA when the
source mode is "P" or "LA", otherwise to RGB, then encode as PNG. -/
def to_png_bytes (img : PILImage) : PNGBytes :=
  let rgb := if img.mode = "P" ∨ img.mode = "LA" then img.convert "RGBA" else img.convert "RGB"
  PNGBytes.png rgb.mode rgb.content

/-- The outbound request assembled by `describe_image_with_claude`
(src/app.py lines 83-107). -/
structure DescribeRequest where
  model : String
  max_tokens : Nat
  media_type : String
  prompt : List Char
  image : PNGBytes

/-- `describe_image_with_claude` from src/app.py lines 54-113, with the
external service's response passed in as a parameter: clamp the limit to
300, normalize the image, render the prompt, join the text blocks of the
response with blank lines, and enforce the word limit. Returns the
request it sends and the processed description. -/
def describe_image_with_claude (img : PILImage) (response : List ContentBlock)
    (max_words : Nat) : DescribeRequest × List Char :=
  let m := min max_words 300
  let png := to_png_bytes img
  let description := joinBlank (textChunks response)
  ({ model := "claude-3-haiku-20240307", max_tokens := 600, media_type := "image/png",
     prompt := user_prompt m, image := png },
   enforce_word_limit description m)

/-- Python truthiness of an optional string: `None` and `""` are falsy. -/
def pyFalsy : Option String → Bool
  | none => true
  | some s => s.isEmpty

/-- Outcome of reading `st.secrets["ANTHROPIC_API_KEY"]`: the lookup may
itself raise (modelled as `Except.error`), the key may be absent, or it
may yield a value. The `try/except: pass` of src/app.py lines 19-23 maps
a raised lookup to no key. -/
def secretsKey : Except Unit (Option String) → Option String
  | Except.ok o => o
  | Except.error _ => none

/-- The message of the RuntimeError raised when no credential is found
(src/app.py lines 30-33). -/
def configErrorMsg : String :=
  "Claude API key not found. Please set ANTHROPIC_API_KEY in Streamlit secrets or as an environment variable."

/-- `get_claude_client` from src/app.py lines 15-35, parameterized by the
secrets-store lookup result and the environment variable: try secrets
first, fall back to the environment when the secrets key is falsy, and
raise when the final key is falsy. Returns the api key used. -/
def get_claude_client (secrets : Except Unit (Option String)) (env : Option String) :
    Except String String :=
  let k1 := secretsKey secrets
  let k2 := if pyFalsy k1 then env else k1
  match k2 with
  | none => Except.error configErrorMsg
  | some s => if s.isEmpty then Except.error configErrorMsg else Except.ok s

/-- Outcome of the call to `describe_image_with_claude` inside the
Describe handler: either the service's response blocks, or a raised
exception (decode failure, missing credential, transport or service
error) carrying its message. -/
inductive DescribeOutcome where
  | success (response : List ContentBlock)
  | failure (msg : String)

/-- The widget values read during one Streamlit script run: the staged
upload, the slider value, which (at most one, but modelled freely)
buttons read True, and the outcome of the describe call if made. -/
structure UIInput where
  uploaded : Bool
  img : PILImage
  max_words : Nat
  clear_clicked : Bool
  describe_clicked : Bool
  clear2_clicked : Bool
  copy_clicked : Bool
  outcome : DescribeOutcome

/-- The user-visible effects of one script run. -/
structure UIEffects where
  warning : Option String
  error : Option String
  request_sent : Bool
  displayed : Option (List Char)
  clipboard : Option (List Char)
  copied_msg : Option String

/-- Convenience constructor for one run's widget readings, in source
order: upload, image, slider, Clear, Describe, Clear text, Copy, and the
describe call's outcome. -/
def buttonsInput (up : Bool) (img : PILImage) (w : Nat)
    (clear1 describe1 clear2 copy1 : Bool) (oc : DescribeOutcome) : UIInput :=
  { uploaded := up, img := img, max_words := w, clear_clicked := clear1,
    describe_clicked := describe1, clear2_clicked := clear2, copy_clicked := copy1,
    outcome := oc }

/-- A run whose effects surface nothing to the user and send no request. -/
def noSideEffects (e : UIEffects) : Prop :=
  e.warning = none ∧ e.error = none ∧ e.request_sent = false ∧
  e.clipboard = none ∧ e.copied_msg = none

/-- Python `str.strip()`: drop whitespace from both ends. -/
def pyStrip (s : List Char) : List Char :=
  ((s.dropWhile isSpace).reverse.dropWhile isSpace).reverse

/-- Warning shown when Describe is clicked with no upload (line 249). -/
def warnMsg : String := "Please upload an image first."

/-- Error surfaced when the describe call raises (line 258). -/
def serviceErrMsg (e : String) : String := "Something went wrong talking to Claude: " ++ e

/-- Confirmation shown after a copy (line 286). -/
def copiedMsg : String := "Description copied to clipboard!"

/-- Result of the Describe branch of a script run. -/
structure DescribeStepOut where
  description : List Char
  warning : Option String
  error : Option String
  request_sent : Bool

/-- The Describe handler (src/app.py lines 247-258): warn when nothing is
uploaded; otherwise store the stripped pipeline output on success, and on
an exception keep the state and surface the error. -/
def describeStep (d : List Char) (inp : UIInput) : DescribeStepOut :=
  if inp.describe_clicked then
    if inp.uploaded then
      match inp.outcome with
      | DescribeOutcome.success resp =>
          { description := pyStrip (describe_image_with_claude inp.img resp inp.max_words).snd,
            warning := none, error := none, request_sent := true }
      | DescribeOutcome.failure e =>
          { description := d, warning := none, error := some (serviceErrMsg e),
            request_sent := true }
    else
      { description := d, warning := some warnMsg, error := none, request_sent := false }
  else
    { description := d, warning := none, error := none, request_sent := false }

/-- One top-to-bottom run of the Streamlit script (src/app.py lines
244-286), in source order: the Clear handler, the Describe handler, the
result display, the Clear-text handler, then the Copy handler. Takes the
stored description into the run and returns the stored description after
the run together with the visible effects. -/
def run_script (description : List Char) (inp : UIInput) : List Char × UIEffects :=
  let d1 := if inp.clear_clicked then [] else description
  let s2 := describeStep d1 inp
  let displayed := if s2.description = [] then none else some s2.description
  let d3 := if inp.clear2_clicked then [] else s2.description
  let doCopy := inp.copy_clicked && !d3.isEmpty
  (d3,
   { warning := s2.warning, error := s2.error, request_sent := s2.request_sent,
     displayed := displayed,
     clipboard := if doCopy then some d3 else none,
     copied_msg := if doCopy then some copiedMsg else none })

/-- The session state starts with an empty description (lines 127-128). -/
def initial_description : List Char := []

/-- The stored description has no leading and no trailing whitespace. -/
def noEdgeSpace (s : List Char) : Bool :=
  (s.head?.all fun c => !isSpace c) && (s.getLast?.all fun c => !isSpace c)

theorem mem_wordsAux_good : ∀ (s acc : List Char),
    (∀ c ∈ acc, isSpace c = false) → ∀ w ∈ wordsAux s acc, goodWord w := by
  intro s
  induction s with
  | nil =>
    intro acc hacc w hw
    simp only [wordsAux] at hw
    by_cases h : acc = []
    · simp [h] at hw
    · simp only [h, if_false, List.mem_singleton] at hw
      subst hw
      refine ⟨by simpa using h, ?_⟩
      intro c hc
      exact hacc c (List.mem_reverse.mp hc)
  | cons c cs ih =>
    intro acc hacc w hw
    simp only [wordsAux] at hw
    by_cases hsp : isSpace c = true
    · simp only [hsp, if_true] at hw
      by_cases h : acc = []
      · simp only [h, if_true] at hw
        exact ih [] (by simp) w hw
      · simp only [h, if_false, List.mem_cons] at hw
        rcases hw with hw | hw
        · subst hw
          refine ⟨by simpa using h, ?_⟩
          intro d hd
          exact hacc d (List.mem_reverse.mp hd)
        · exact ih [] (by simp) w hw
    · simp only [hsp, if_false] at hw
      refine ih (c :: acc) ?_ w hw
      intro d hd
      rcases List.mem_cons.mp hd with rfl | hd
      · simpa using hsp
      · exact hacc d hd

theorem pywords_good (s : List Char) : ∀ w ∈ pywords s, goodWord w :=
  mem_wordsAux_good s [] (by simp)

/-- Scanning a run of non-space characters just extends the accumulator. -/
theorem wordsAux_append_word : ∀ (w s acc : List Char),
    (∀ c ∈ w, isSpace c = false) →
    wordsAux (w ++ s) acc = wordsAux s (w.reverse ++ acc) := by
  intro w
  induction w with
  | nil => intro s acc _; simp
  | cons c cw ih =>
    intro s acc hw
    have hc : isSpace c = false := hw c (by simp)
    simp only [List.cons_append, wordsAux, List.append_eq, hc, if_false, Bool.false_eq_true]
    rw [ih s (c :: acc) (fun d hd => hw d (by simp [hd]))]
    simp [List.append_assoc]

/-- A leading space flushes the accumulator. -/
theorem wordsAux_space (s acc : List Char) (c : Char) (h : isSpace c = true) :
    wordsAux (c :: s) acc =
      if acc = [] then wordsAux s [] else acc.reverse :: wordsAux s [] := by
  simp [wordsAux, h]

/-- A wholly non-space, non-empty string splits into exactly itself. -/
theorem wordsAux_no_space (l : List Char)
    (h : ∀ c ∈ l, isSpace c = false) (hne : l ≠ []) :
    wordsAux l [] = [l] := by
  have he := wordsAux_append_word l [] [] h
  simp only [List.append_nil] at he
  rw [he]
  simp only [wordsAux]
  have : l.reverse ≠ [] := by simp [hne]
  simp [this]

/-- Splitting `" ".join(ws) ++ tl` yields exactly `ws.length` words when
the words are good and the suffix `tl` is non-empty and space-free. -/
theorem wordsAux_joinSpace_length : ∀ (ws : List (List Char)) (tl : List Char),
    ws ≠ [] → (∀ w ∈ ws, goodWord w) → tl ≠ [] → (∀ c ∈ tl, isSpace c = false) →
    (wordsAux (joinSpace ws ++ tl) []).length = ws.length := by
  intro ws
  induction ws with
  | nil => intro tl h; exact absurd rfl h
  | cons w rest ih =>
    intro tl _ hgood htl htlns
    have hw : goodWord w := hgood w (by simp)
    cases rest with
    | nil =>
      have hall : ∀ c ∈ w ++ tl, isSpace c = false := by
        intro c hc
        rcases List.mem_append.mp hc with hc | hc
        · exact hw.2 c hc
        · exact htlns c hc
      have hne : w ++ tl ≠ [] := by
        intro hcon
        exact htl (List.append_eq_nil.mp hcon).2
      show (wordsAux (w ++ tl) []).length = 1
      rw [wordsAux_no_space (w ++ tl) hall hne]
      rfl
    | cons w2 rest2 =>
      have hstep : joinSpace (w :: w2 :: rest2) ++ tl =
          w ++ ' ' :: (joinSpace (w2 :: rest2) ++ tl) := by
        simp [joinSpace, List.append_assoc]
      rw [hstep, wordsAux_append_word w (' ' :: (joinSpace (w2 :: rest2) ++ tl)) [] hw.2]
      rw [wordsAux_space (joinSpace (w2 :: rest2) ++ tl) (w.reverse ++ []) ' ' (by decide)]
      have hrev : w.reverse ++ [] ≠ [] := by simp [hw.1]
      simp only [hrev, if_false]
      have := ih tl (by simp) (fun u hu => hgood u (List.mem_cons_of_mem w hu)) htl htlns
      simp [this]

/-- The post-processor's output never exceeds `m` words, for `m ≥ 1`. -/
theorem enforce_word_limit_words_le (text : List Char) (m : Nat) (hm : 1 ≤ m) :
    (pywords (enforce_word_limit text m)).length ≤ m := by
  by_cases h : (pywords text).length ≤ m
  · simp [enforce_word_limit, h]
  · have hlt : m < (pywords text).length := Nat.lt_of_not_le h
    have hlen : ((pywords text).take m).length = m := by
      rw [List.length_take]
      omega
    have htake : (pywords text).take m ≠ [] := by
      intro hnil
      rw [hnil] at hlen
      simp at hlen
      omega
    have hgood : ∀ w ∈ (pywords text).take m, goodWord w := fun w hw =>
      pywords_good text w (List.take_subset m (pywords text) hw)
    have hcount := wordsAux_joinSpace_length ((pywords text).take m) dots htake hgood
      (by decide) (by decide)
    have hout : enforce_word_limit text m = joinSpace ((pywords text).take m) ++ dots := by
      simp [enforce_word_limit, h]
    rw [hout]
    show (wordsAux (joinSpace ((pywords text).take m) ++ dots) []).length ≤ m
    rw [hcount, hlen]

/-- After dropping leading whitespace, the head (if any) is not whitespace. -/
theorem head?_dropWhile_space (l : List Char) :
    ((l.dropWhile isSpace).head?.all fun c => !isSpace c) = true := by
  induction l with
  | nil => rfl
  | cons c cs ih =>
    by_cases h : isSpace c = true
    · simpa [List.dropWhile_cons, h] using ih
    · simp [List.dropWhile_cons, h]

/-- Dropping a prefix does not change the last element, when something is left. -/
theorem getLast?_dropWhile (p : Char → Bool) : ∀ l : List Char,
    l.dropWhile p ≠ [] → (l.dropWhile p).getLast? = l.getLast? := by
  intro l
  induction l with
  | nil => intro h; exact absurd rfl h
  | cons c cs ih =>
    intro h
    by_cases hc : p c = true
    · rw [List.dropWhile_cons, if_pos hc] at h ⊢
      rw [ih h]
      cases cs with
      | nil => exact absurd rfl h
      | cons b bs => rw [List.getLast?_cons_cons]
    · rw [List.dropWhile_cons, if_neg hc]

/-- Python `str.strip()` leaves no whitespace at either end. -/
theorem noEdgeSpace_pyStrip (s : List Char) : noEdgeSpace (pyStrip s) = true := by
  unfold pyStrip noEdgeSpace
  by_cases hun : (s.dropWhile isSpace).reverse.dropWhile isSpace = []
  · simp [hun]
  · rw [List.head?_reverse, List.getLast?_reverse]
    rw [getLast?_dropWhile isSpace (s.dropWhile isSpace).reverse hun]
    rw [List.getLast?_reverse]
    have h1 := head?_dropWhile_space s
    have h2 := head?_dropWhile_space (s.dropWhile isSpace).reverse
    rw [h2, h1]
    rfl

/-- C1: for every integer w in [1,300] and every text, `enforce_word_limit`
returns at most w whitespace-delimited words; if the input already has at
most w words the output is the input unchanged; and if the input exceeds w
words the output is exactly the first w words rejoined with single spaces,
followed by the ellipsis marker `"..."`. -/
theorem enforce_word_limit_spec (w : Nat) (text : List Char)
    (h1 : 1 ≤ w) (_h2 : w ≤ 300) :
    (pywords (enforce_word_limit text w)).length ≤ w ∧
    ((pywords text).length ≤ w → enforce_word_limit text w = text) ∧
    (w < (pywords text).length →
      enforce_word_limit text w = joinSpace ((pywords text).take w) ++ dots) := by
  refine ⟨enforce_word_limit_words_le text w h1, ?_, ?_⟩
  · intro h
    simp [enforce_word_limit, h]
  · intro h
    have hn := Nat.not_le.mpr h
    simp [enforce_word_limit, hn]

/-- Witness for C1 at w = 2 and the four-word text "one two three four". -/
theorem enforce_word_limit_spec_witness :
    (pywords (enforce_word_limit ("one two three four").toList 2)).length ≤ 2 ∧
    ((pywords ("one two three four").toList).length ≤ 2 →
      enforce_word_limit ("one two three four").toList 2 = ("one two three four").toList) ∧
    (2 < (pywords ("one two three four").toList).length →
      enforce_word_limit ("one two three four").toList 2 =
        joinSpace ((pywords ("one two three four").toList).take 2) ++ dots) :=
  enforce_word_limit_spec 2 ("one two three four").toList (by decide) (by decide)

/-- C3: for every slider value v ≥ 1 the effective word limit used
downstream is min v 300, and it is this clamped value that appears at
both checkpoints: interpolated into the prompt sent with the request, and
enforced by the post-processor on the received response, whose output
therefore never exceeds min v 300 words. -/
theorem word_limit_clamped (v : Nat) (hv : 1 ≤ v) (img : PILImage)
    (resp : List ContentBlock) :
    (describe_image_with_claude img resp v).fst.prompt = user_prompt (min v 300) ∧
    (describe_image_with_claude img resp v).snd =
      enforce_word_limit (joinBlank (textChunks resp)) (min v 300) ∧
    (pywords (describe_image_with_claude img resp v).snd).length ≤ min v 300 := by
  refine ⟨rfl, rfl, ?_⟩
  have hm : 1 ≤ min v 300 := le_min hv (by norm_num)
  have hsnd : (describe_image_with_claude img resp v).snd =
      enforce_word_limit (joinBlank (textChunks resp)) (min v 300) := rfl
  rw [hsnd]
  exact enforce_word_limit_words_le _ _ hm

/-- Witness for C3 at v = 2 with a four-word service response. -/
theorem word_limit_clamped_witness :
    (describe_image_with_claude ⟨"RGB", 0⟩ [ContentBlock.text ("a b c d").toList] 2).fst.prompt
      = user_prompt (min 2 300) ∧
    (describe_image_with_claude ⟨"RGB", 0⟩ [ContentBlock.text ("a b c d").toList] 2).snd =
      enforce_word_limit (joinBlank (textChunks [ContentBlock.text ("a b c d").toList]))
        (min 2 300) ∧
    (pywords (describe_image_with_claude ⟨"RGB", 0⟩
        [ContentBlock.text ("a b c d").toList] 2).snd).length ≤ min 2 300 :=
  word_limit_clamped 2 (by decide) ⟨"RGB", 0⟩ [ContentBlock.text ("a b c d").toList]

/-- C4: credential resolution tries the secrets store first and the
environment variable second; a truthy secrets value is used with the
environment ignored, a truthy environment value is used when the secrets
key is falsy, and the configuration error is raised exactly when both
sources are falsy. -/
theorem credential_resolution (secrets : Except Unit (Option String)) (env : Option String) :
    (∀ v, secretsKey secrets = some v → v.isEmpty = false →
      get_claude_client secrets env = Except.ok v) ∧
    (pyFalsy (secretsKey secrets) = true → ∀ w, env = some w → w.isEmpty = false →
      get_claude_client secrets env = Except.ok w) ∧
    (get_claude_client secrets env = Except.error configErrorMsg ↔
      (pyFalsy (secretsKey secrets) = true ∧ pyFalsy env = true)) := by
  refine ⟨?_, ?_, ?_⟩
  · intro v hv hne
    simp [get_claude_client, hv, pyFalsy, hne]
  · intro hf w hw hne
    simp [get_claude_client, hf, hw, hne]
  · cases hk : secretsKey secrets with
    | none =>
      cases env with
      | none => simp [get_claude_client, hk, pyFalsy]
      | some w =>
        by_cases hw : w.isEmpty = true <;>
          simp [get_claude_client, hk, pyFalsy, hw]
    | some v =>
      by_cases hv : v.isEmpty = true
      · cases env with
        | none => simp [get_claude_client, hk, pyFalsy, hv]
        | some w =>
          by_cases hw : w.isEmpty = true <;>
            simp [get_claude_client, hk, pyFalsy, hv, hw]
      · simp [get_claude_client, hk, pyFalsy, hv]

/-- Witness for C4: a truthy secrets value wins over the environment. -/
theorem credential_resolution_witness :
    get_claude_client (Except.ok (some "sk-from-secrets")) (some "sk-from-env") =
      Except.ok "sk-from-secrets" :=
  (credential_resolution (Except.ok (some "sk-from-secrets")) (some "sk-from-env")).1
    "sk-from-secrets" rfl rfl

/-- C10: a falsy secrets-store value (the empty string) behaves exactly
as an absent key, falling through to the environment variable; and an
empty-string environment value also counts as missing, triggering the
configuration error. -/
theorem falsy_secret_falls_through (env : Option String) :
    get_claude_client (Except.ok (some "")) env = get_claude_client (Except.ok none) env ∧
    get_claude_client (Except.ok (some "")) (some "") = Except.error configErrorMsg := by
  constructor
  · cases env with
    | none => rfl
    | some w => rfl
  · rfl

/-- C5: the normalizer always re-encodes into PNG carrying the source's
visual content; the encoded mode is RGBA exactly when the source mode is
palette ("P") or luminance-plus-alpha ("LA"), and is the three-channel
RGB mode without alpha in every other case. -/
theorem to_png_bytes_spec (img : PILImage) :
    ∃ m, to_png_bytes img = PNGBytes.png m img.content ∧
      (m = "RGBA" ↔ (img.mode = "P" ∨ img.mode = "LA")) ∧
      (m = "RGBA" ∨ m = "RGB") := by
  by_cases h : img.mode = "P" ∨ img.mode = "LA"
  · refine ⟨"RGBA", ?_, ?_, Or.inl rfl⟩
    · simp [to_png_bytes, PILImage.convert, h]
    · simp [h]
  · refine ⟨"RGB", ?_, ?_, Or.inr rfl⟩
    · simp [to_png_bytes, PILImage.convert, h]
    · constructor
      · intro hc
        exact absurd hc (by decide)
      · intro hm
        exact absurd hm h

/-- Witness for C5 at a palette-mode image. -/
theorem to_png_bytes_spec_witness :
    ∃ m, to_png_bytes ⟨"P", 5⟩ = PNGBytes.png m 5 ∧
      (m = "RGBA" ↔ ("P" = "P" ∨ "P" = "LA")) ∧
      (m = "RGBA" ∨ m = "RGB") :=
  to_png_bytes_spec ⟨"P", 5⟩

/-- C2: within a run where neither clear button read True, a Describe
that fails with any raised error (decode failure, missing credential,
service failure — all caught by the single try/except) leaves the stored
description exactly as it was and surfaces the error message; and
whenever the stored description changes, the outcome was a success. -/
theorem failed_describe_preserves (d : List Char) (inp : UIInput)
    (hc1 : inp.clear_clicked = false) (hc2 : inp.clear2_clicked = false)
    (hd : inp.describe_clicked = true) (hu : inp.uploaded = true) :
    (∀ e, inp.outcome = DescribeOutcome.failure e →
      (run_script d inp).fst = d ∧
      (run_script d inp).snd.error = some (serviceErrMsg e)) ∧
    ((run_script d inp).fst ≠ d → ∃ resp, inp.outcome = DescribeOutcome.success resp) := by
  constructor
  · intro e he
    constructor <;> simp [run_script, describeStep, hc1, hc2, hd, hu, he]
  · intro hne
    cases ho : inp.outcome with
    | success resp => exact ⟨resp, rfl⟩
    | failure e =>
      exfalso
      apply hne
      simp [run_script, describeStep, hc1, hc2, hd, hu, ho]

/-- Witness for C2 at a concrete failing run over a non-empty prior state. -/
theorem failed_describe_preserves_witness :
    (run_script ("old text").toList
      { uploaded := true, img := ⟨"RGB", 0⟩, max_words := 50, clear_clicked := false,
        describe_clicked := true, clear2_clicked := false, copy_clicked := false,
        outcome := DescribeOutcome.failure "boom" }).fst = ("old text").toList ∧
    (run_script ("old text").toList
      { uploaded := true, img := ⟨"RGB", 0⟩, max_words := 50, clear_clicked := false,
        describe_clicked := true, clear2_clicked := false, copy_clicked := false,
        outcome := DescribeOutcome.failure "boom" }).snd.error =
      some (serviceErrMsg "boom") :=
  (failed_describe_preserves ("old text").toList
    { uploaded := true, img := ⟨"RGB", 0⟩, max_words := 50, clear_clicked := false,
      describe_clicked := true, clear2_clicked := false, copy_clicked := false,
      outcome := DescribeOutcome.failure "boom" } rfl rfl rfl rfl).1 "boom" rfl

/-- C6: a Describe with no staged image surfaces the warning, sends no
request to the service, and leaves the stored description unchanged. -/
theorem describe_without_image (d : List Char) (inp : UIInput)
    (hc1 : inp.clear_clicked = false) (hc2 : inp.clear2_clicked = false)
    (hd : inp.describe_clicked = true) (hu : inp.uploaded = false) :
    (run_script d inp).fst = d ∧
    (run_script d inp).snd.warning = some warnMsg ∧
    (run_script d inp).snd.request_sent = false := by
  refine ⟨?_, ?_, ?_⟩ <;> simp [run_script, describeStep, hc1, hc2, hd, hu]

/-- Witness for C6 at a concrete run with no upload. -/
theorem describe_without_image_witness :
    (run_script ("kept").toList
      { uploaded := false, img := ⟨"RGB", 0⟩, max_words := 50, clear_clicked := false,
        describe_clicked := true, clear2_clicked := false, copy_clicked := false,
        outcome := DescribeOutcome.failure "unused" }).fst = ("kept").toList ∧
    (run_script ("kept").toList
      { uploaded := false, img := ⟨"RGB", 0⟩, max_words := 50, clear_clicked := false,
        describe_clicked := true, clear2_clicked := false, copy_clicked := false,
        outcome := DescribeOutcome.failure "unused" }).snd.warning = some warnMsg ∧
    (run_script ("kept").toList
      { uploaded := false, img := ⟨"RGB", 0⟩, max_words := 50, clear_clicked := false,
        describe_clicked := true, clear2_clicked := false, copy_clicked := false,
        outcome := DescribeOutcome.failure "unused" }).snd.request_sent = false :=
  describe_without_image ("kept").toList
    { uploaded := false, img := ⟨"RGB", 0⟩, max_words := 50, clear_clicked := false,
      describe_clicked := true, clear2_clicked := false, copy_clicked := false,
      outcome := DescribeOutcome.failure "unused" } rfl rfl rfl rfl

/-- C7: the Clear and Clear-text buttons have identical effect on the
stored description: from every prior state each deterministically resets
it to the empty string, surfacing no warning, error, request, clipboard
write or confirmation. -/
theorem clear_buttons_equivalent (d : List Char) (up : Bool) (img : PILImage)
    (w : Nat) (oc : DescribeOutcome) :
    (run_script d (buttonsInput up img w true false false false oc)).fst = [] ∧
    noSideEffects (run_script d (buttonsInput up img w true false false false oc)).snd ∧
    (run_script d (buttonsInput up img w false false true false oc)).fst = [] ∧
    noSideEffects (run_script d (buttonsInput up img w false false true false oc)).snd :=
  ⟨rfl, ⟨rfl, rfl, rfl, rfl, rfl⟩, rfl, ⟨rfl, rfl, rfl, rfl, rfl⟩⟩

/-- Witness for C7 at a concrete non-empty prior state. -/
theorem clear_buttons_equivalent_witness :
    (run_script ("something").toList (buttonsInput false ⟨"RGB", 0⟩ 10 true false false false
      (DescribeOutcome.failure "x"))).fst = [] ∧
    noSideEffects (run_script ("something").toList (buttonsInput false ⟨"RGB", 0⟩ 10
      true false false false (DescribeOutcome.failure "x"))).snd ∧
    (run_script ("something").toList (buttonsInput false ⟨"RGB", 0⟩ 10 false false true false
      (DescribeOutcome.failure "x"))).fst = [] ∧
    noSideEffects (run_script ("something").toList (buttonsInput false ⟨"RGB", 0⟩ 10
      false false true false (DescribeOutcome.failure "x"))).snd :=
  clear_buttons_equivalent ("something").toList false ⟨"RGB", 0⟩ 10
    (DescribeOutcome.failure "x")

/-- C8: in a run where only Copy was clicked, an empty description means
no clipboard write and no confirmation; a non-empty description is handed
to the clipboard mechanism equal, character for character, to the
description displayed in that run, and a confirmation is shown. -/
theorem copy_button_spec (d : List Char) (up : Bool) (img : PILImage)
    (w : Nat) (oc : DescribeOutcome) :
    (run_script d (buttonsInput up img w false false false true oc)).fst = d ∧
    (d = [] →
      (run_script d (buttonsInput up img w false false false true oc)).snd.clipboard = none ∧
      (run_script d (buttonsInput up img w false false false true oc)).snd.copied_msg = none) ∧
    (d ≠ [] →
      (run_script d (buttonsInput up img w false false false true oc)).snd.clipboard = some d ∧
      (run_script d (buttonsInput up img w false false false true oc)).snd.copied_msg =
        some copiedMsg ∧
      (run_script d (buttonsInput up img w false false false true oc)).snd.displayed =
        some d) := by
  refine ⟨rfl, ?_, ?_⟩
  · rintro rfl
    exact ⟨rfl, rfl⟩
  · intro h
    have hie : d.isEmpty = false := by
      cases d with
      | nil => exact absurd rfl h
      | cons a l => rfl
    refine ⟨?_, ?_, ?_⟩ <;>
      simp [run_script, describeStep, buttonsInput, hie, h]

/-- Witness for C8 at the non-empty description "hi". -/
theorem copy_button_spec_witness :
    (run_script ("hi").toList (buttonsInput false ⟨"RGB", 0⟩ 10 false false false true
      (DescribeOutcome.failure "x"))).snd.clipboard = some ("hi").toList ∧
    (run_script ("hi").toList (buttonsInput false ⟨"RGB", 0⟩ 10 false false false true
      (DescribeOutcome.failure "x"))).snd.copied_msg = some copiedMsg ∧
    (run_script ("hi").toList (buttonsInput false ⟨"RGB", 0⟩ 10 false false false true
      (DescribeOutcome.failure "x"))).snd.displayed = some ("hi").toList :=
  (copy_button_spec ("hi").toList false ⟨"RGB", 0⟩ 10 (DescribeOutcome.failure "x")).2.2
    (by decide)

/-- C9: the stored description never carries leading or trailing
whitespace: the initial state is empty, every run maps an
edge-whitespace-free state to an edge-whitespace-free state, and a
successful Describe (with Clear-text not clicked in the same run) stores
exactly the post-processor's output stripped of edge whitespace. -/
theorem description_edge_whitespace (d : List Char) (inp : UIInput)
    (h : noEdgeSpace d = true) :
    noEdgeSpace (run_script d inp).fst = true ∧
    noEdgeSpace initial_description = true ∧
    (∀ resp, inp.describe_clicked = true → inp.uploaded = true →
      inp.outcome = DescribeOutcome.success resp → inp.clear2_clicked = false →
      (run_script d inp).fst =
        pyStrip (describe_image_with_claude inp.img resp inp.max_words).snd) := by
  refine ⟨?_, rfl, ?_⟩
  · have hfst : (run_script d inp).fst =
        if inp.clear2_clicked then []
        else (describeStep (if inp.clear_clicked then [] else d) inp).description := rfl
    rw [hfst]
    by_cases h2 : inp.clear2_clicked = true
    · simp [h2, noEdgeSpace]
    · simp only [h2, Bool.false_eq_true, if_false]
      have hd1 : noEdgeSpace (if inp.clear_clicked then [] else d) = true := by
        by_cases hc : inp.clear_clicked = true
        · simp [hc, noEdgeSpace]
        · simpa [hc] using h
      unfold describeStep
      by_cases hdc : inp.describe_clicked = true
      · by_cases hup : inp.uploaded = true
        · cases ho : inp.outcome with
          | success resp => simp [hdc, hup, ho, noEdgeSpace_pyStrip]
          | failure e => simpa [hdc, hup, ho] using hd1
        · simpa [hdc, hup] using hd1
      · simpa [hdc] using hd1
  · intro resp hdc hup ho hc2
    simp [run_script, describeStep, hdc, hup, ho, hc2]

/-- Witness for C9: a successful describe run from the state "hi" stores
the stripped pipeline output, which is free of edge whitespace. -/
theorem description_edge_whitespace_witness :
    noEdgeSpace (run_script ("hi").toList
      { uploaded := true, img := ⟨"RGB", 0⟩, max_words := 5, clear_clicked := false,
        describe_clicked := true, clear2_clicked := false, copy_clicked := false,
        outcome := DescribeOutcome.success [ContentBlock.text (" a  b ").toList] }).fst
      = true ∧
    (run_script ("hi").toList
      { uploaded := true, img := ⟨"RGB", 0⟩, max_words := 5, clear_clicked := false,
        describe_clicked := true, clear2_clicked := false, copy_clicked := false,
        outcome := DescribeOutcome.success [ContentBlock.text (" a  b ").toList] }).fst =
      pyStrip (describe_image_with_claude ⟨"RGB", 0⟩
        [ContentBlock.text (" a  b ").toList] 5).snd :=
  ⟨(description_edge_whitespace ("hi").toList
      { uploaded := true, img := ⟨"RGB", 0⟩, max_words := 5, clear_clicked := false,
        describe_clicked := true, clear2_clicked := false, copy_clicked := false,
        outcome := DescribeOutcome.success [ContentBlock.text (" a  b ").toList] }
      (by decide)).1,
   (description_edge_whitespace ("hi").toList
      { uploaded := true, img := ⟨"RGB", 0⟩, max_words := 5, clear_clicked := false,
        describe_clicked := true, clear2_clicked := false, copy_clicked := false,
        outcome := DescribeOutcome.success [ContentBlock.text (" a  b ").toList] }
      (by decide)).2.2 [ContentBlock.text (" a  b ").toList] rfl rfl rfl rfl⟩

/-- Witness for C10 at the environment value "sk-env": the empty secrets
value and the absent secrets value resolve identically. -/
theorem falsy_secret_falls_through_witness :
    get_claude_client (Except.ok (some "")) (some "sk-env") =
      get_claude_client (Except.ok none) (some "sk-env") ∧
    get_claude_client (Except.ok (some "")) (some "") = Except.error configErrorMsg :=
  falsy_secret_falls_through (some "sk-env")

end Describer
